import Mathlib

/-!
Shallow embedding of the pact mock-server registry (`server_manager.rs`)
and of the `HttpAuth` display masking (`http_utils.rs`).

The Rust `ServerManager` owns a `BTreeMap<String, ServerEntry>` where each
`ServerEntry` holds an `Arc<Mutex<MockServer>>` and a `tokio` join handle.
The `Arc` indirection is modelled by a heap (`store`: an association list
from reference numbers to `MockServer` states); a `ServerEntry` holds the
reference number and the join-handle number.  The `BTreeMap` is modelled by
an association list kept sorted in strictly ascending key order.

Every registry operation is a pure state transformer; operations that can
`block_on` a join handle additionally return the list of join handles they
awaited, so that "the task handle was (not) joined" is expressible.
-/

namespace PactMockServer

/-- A Rust `String` is modelled as its list of characters (for the byte
indexing done by `http_utils.rs`, byte and character units coincide on
ASCII); `BTreeMap<String, _>` keys are ordered lexicographically. -/
abbrev RStr := List Char

/-- The mutable state behind one mock server's lock, as used by
`server_manager.rs`: its `id` field, its resolved bound `port`
(`Option<u16>`, absent until the bind resolves), and the outcome of
`MockServer::shutdown`.  `shutdownOk` is modelled from the spec:
`MockServer::shutdown` lives in `mock_server.rs` (not under `src/`); per the
spec it delivers the cancellation signal, returning `Ok(())` on success and
an error when the task has already exited or the signal channel is closed.
Only its success/failure is observable to the registry. -/
structure MockServer where
  id : RStr
  port : Option Nat
  shutdownOk : Bool
deriving DecidableEq, Repr

/-- A resolved socket address (`std::net::SocketAddr`): an abstract IP
(0 stands for `0.0.0.0`) and a port. -/
structure SocketAddr where
  ip : Nat
  port : Nat
deriving DecidableEq, Repr

/-- `struct ServerEntry { mock_server: Arc<Mutex<MockServer>>, join_handle:
tokio::task::JoinHandle<()> }`: the `Arc` is a reference into the heap, the
join handle is a task number. -/
structure ServerEntry where
  mock_server : Nat
  join_handle : Nat
deriving DecidableEq, Repr

/-- `struct ServerManager { runtime, mock_servers: BTreeMap<String,
ServerEntry> }`.  `store` is the heap of `MockServer` states reachable
through the `Arc` handles; `mock_servers` is the `BTreeMap`, an association
list sorted by key. -/
structure ServerManager where
  store : List (Nat × MockServer)
  mock_servers : List (RStr × ServerEntry)
deriving DecidableEq, Repr

/-- Association-list lookup (first match), modelling `BTreeMap::get` and
dereferencing a heap reference. -/
def assocGet [DecidableEq α] : List (α × β) → α → Option β
  | [], _ => none
  | (k', v') :: rest, k => if k = k' then some v' else assocGet rest k

/-- Association-list removal of the (first) binding of a key, modelling the
map mutation done by `BTreeMap::remove`. -/
def assocErase [DecidableEq α] : List (α × β) → α → List (α × β)
  | [], _ => []
  | (k', v') :: rest, k => if k = k' then rest else (k', v') :: assocErase rest k

/-- In-place update of the (first) binding of a key, modelling a write
through an `Arc<Mutex<_>>` handle into the heap. -/
def assocSet [DecidableEq α] : List (α × β) → α → β → List (α × β)
  | [], _, _ => []
  | (k', v') :: rest, k, v => if k = k' then (k, v) :: rest else (k', v') :: assocSet rest k v

/-- `BTreeMap::insert`: insert keeping ascending key order, replacing the
value when the key is already present. -/
def btInsert [LinearOrder α] : List (α × β) → α → β → List (α × β)
  | [], k, v => [(k, v)]
  | (k', v') :: rest, k, v =>
    if k < k' then (k, v) :: (k', v') :: rest
    else if k = k' then (k, v) :: rest
    else (k', v') :: btInsert rest k v

/-- The keys of the map are in strictly ascending order — the `BTreeMap`
representation invariant. -/
abbrev sortedKeys (m : List (RStr × ServerEntry)) : Prop :=
  m.Pairwise (fun a b => a.1 < b.1)

/-- Placeholder `MockServer` value for dereferencing; an `Arc` dereference
cannot fail in Rust, so this default is never reached from states built by
the registry's own operations. -/
def msDefault : MockServer := ⟨[], none, false⟩

/-- `entry.mock_server.lock().unwrap()`: read the server state behind a
heap reference. -/
def ServerManager.lockServer (mgr : ServerManager) (r : Nat) : MockServer :=
  (assocGet mgr.store r).getD msDefault

/-- The outcome of `MockServer::new` / `MockServer::new_tls` (defined in
`mock_server.rs`, outside `src/`): on success, the freshly built
`MockServer` state together with the serving future (a task number); on
failure, an error string.  The registry code is parametric in this
outcome. -/
abbrev NewOutcome := Except RStr (MockServer × Nat)

/-- `ServerManager::start_mock_server_with_addr`: on creation failure the
`?` returns the error at once; on success the fresh `Arc` is allocated, the
entry `{ mock_server, join_handle: spawn(future) }` is inserted under `id`
(replacing any previous entry), and the resolved address is returned —
`SocketAddr::new(addr.ip(), port)` when the server's port resolved, the
requested `addr` otherwise.  The third component lists the join handles
awaited by the call (none). -/
def start_mock_server_with_addr (mgr : ServerManager) (id : RStr)
    (outcome : NewOutcome) (addr : SocketAddr) :
    Except RStr SocketAddr × ServerManager × List Nat :=
  match outcome with
  | .error e => (.error e, mgr, [])
  | .ok (ms, fut) =>
    let r := mgr.store.length
    let mgr' : ServerManager :=
      { store := (r, ms) :: mgr.store
        mock_servers := btInsert mgr.mock_servers id ⟨r, fut⟩ }
    match ms.port with
    | some p => (.ok ⟨addr.ip, p⟩, mgr', [])
    | none => (.ok addr, mgr', [])

/-- `ServerManager::start_tls_mock_server_with_addr`: identical body to the
plain variant; the TLS certificate material only enters through
`MockServer::new_tls`, i.e. through `outcome`. -/
def start_tls_mock_server_with_addr (mgr : ServerManager) (id : RStr)
    (outcome : NewOutcome) (addr : SocketAddr) :
    Except RStr SocketAddr × ServerManager × List Nat :=
  match outcome with
  | .error e => (.error e, mgr, [])
  | .ok (ms, fut) =>
    let r := mgr.store.length
    let mgr' : ServerManager :=
      { store := (r, ms) :: mgr.store
        mock_servers := btInsert mgr.mock_servers id ⟨r, fut⟩ }
    match ms.port with
    | some p => (.ok ⟨addr.ip, p⟩, mgr', [])
    | none => (.ok addr, mgr', [])

/-- `ServerManager::start_mock_server`: delegates to
`start_mock_server_with_addr` on `([0,0,0,0], port)` and projects the port
out of the returned address. -/
def start_mock_server (mgr : ServerManager) (id : RStr)
    (outcome : NewOutcome) (port : Nat) :
    Except RStr Nat × ServerManager × List Nat :=
  let res := start_mock_server_with_addr mgr id outcome ⟨0, port⟩
  (res.1.map SocketAddr.port, res.2)

/-- `ServerManager::start_mock_server_nonblocking`: the suspend-capable
variant.  Same insertion as the blocking path, but the returned value is
`port.ok_or_else(|| "Started mock server has no port")`. -/
def start_mock_server_nonblocking (mgr : ServerManager) (id : RStr)
    (outcome : NewOutcome) (port : Nat) :
    Except RStr Nat × ServerManager × List Nat :=
  match outcome with
  | .error e => (.error e, mgr, [])
  | .ok (ms, fut) =>
    let r := mgr.store.length
    let mgr' : ServerManager :=
      { store := (r, ms) :: mgr.store
        mock_servers := btInsert mgr.mock_servers id ⟨r, fut⟩ }
    match ms.port with
    | some p => (.ok p, mgr', [])
    | none => (.error ("Started mock server has no port".toList), mgr', [])

/-- `ServerManager::shutdown_mock_server_by_id`: `remove(&id)`; on a hit,
lock the server and call `shutdown()` — on `Ok(())` await the join handle
and return `true`, on `Err` return `false` (the entry stays removed); on a
miss return `false`. -/
def shutdown_mock_server_by_id (mgr : ServerManager) (id : RStr) :
    Bool × ServerManager × List Nat :=
  match assocGet mgr.mock_servers id with
  | some entry =>
    let mgr1 : ServerManager := { mgr with mock_servers := assocErase mgr.mock_servers id }
    let ms := mgr.lockServer entry.mock_server
    if ms.shutdownOk then (true, mgr1, [entry.join_handle])
    else (false, mgr1, [])
  | none => (false, mgr, [])

/-- The find predicate used by the port-based operations:
`entry.mock_server.lock().unwrap().port.unwrap_or_default() == port`. -/
def resolvedPortMatches (store : List (Nat × MockServer)) (e : ServerEntry) (port : Nat) : Bool :=
  ((assocGet store e.mock_server).getD msDefault).port.getD 0 == port

/-- `ServerManager::shutdown_mock_server_by_port`: scan for the first entry
whose `port.unwrap_or_default()` equals `port`, project out that server's
`id` field, then `remove(&id)` and proceed exactly as the by-id
shutdown; `false` when nothing matches. -/
def shutdown_mock_server_by_port (mgr : ServerManager) (port : Nat) :
    Bool × ServerManager × List Nat :=
  let result := (mgr.mock_servers.find? (fun kv => resolvedPortMatches mgr.store kv.2 port)).map
    (fun kv => (mgr.lockServer kv.2.mock_server).id)
  match result with
  | some id =>
    match assocGet mgr.mock_servers id with
    | some entry =>
      let mgr1 : ServerManager := { mgr with mock_servers := assocErase mgr.mock_servers id }
      let ms := mgr.lockServer entry.mock_server
      if ms.shutdownOk then (true, mgr1, [entry.join_handle])
      else (false, mgr1, [])
    | none => (false, mgr, [])
  | none => (false, mgr, [])

/-- `ServerManager::find_mock_server_by_id`: takes `&self`, so it cannot
mutate the registry; it locks the target server and applies `f`. -/
def find_mock_server_by_id {R : Type} (mgr : ServerManager) (id : RStr)
    (f : MockServer → R) : Option R :=
  match assocGet mgr.mock_servers id with
  | some entry => some (f (mgr.lockServer entry.mock_server))
  | none => none

/-- `ServerManager::find_mock_server_by_port_mut`: find the first entry
matching on `port.unwrap_or_default()`, apply the mutating `f` to the
server state behind its lock (the write goes through the `Arc` into the
heap; the map itself is untouched). -/
def find_mock_server_by_port_mut {R : Type} (mgr : ServerManager) (port : Nat)
    (f : MockServer → R × MockServer) : Option R × ServerManager :=
  match mgr.mock_servers.find? (fun kv => resolvedPortMatches mgr.store kv.2 port) with
  | some kv =>
    let ms := mgr.lockServer kv.2.mock_server
    (some (f ms).1, { mgr with store := assocSet mgr.store kv.2.mock_server (f ms).2 })
  | none => (none, mgr)

/-- `ServerManager::map_mock_servers`: iterate the `BTreeMap` (ascending
key order), pushing `f` of each locked server onto the result vector. -/
def map_mock_servers {R : Type} (mgr : ServerManager) (f : MockServer → R) : List R :=
  mgr.mock_servers.foldl (fun results kv => results ++ [f (mgr.lockServer kv.2.mock_server)]) []

/-- Modelled from the spec: `MockServer::new` (in `mock_server.rs`, not
under `src/`) performs the socket bind before returning, so on success the
server's resolved port is present and, the OS never assigning port 0, is
strictly positive ("Starting a server with a requested port of 0 returns a
concrete resolved port > 0"). -/
def bindResolved : NewOutcome → Bool
  | .error _ => true
  | .ok (ms, _) =>
    match ms.port with
    | some p => decide (0 < p)
    | none => false

/-- Concrete registry: one server `"a"` on port 1234 whose shutdown signal
cannot be delivered. -/
def mgrSigFail : ServerManager :=
  ⟨[(0, ⟨['a'], some 1234, false⟩)], [(['a'], ⟨0, 7⟩)]⟩

/-- Concrete creation outcome: success, but the resolved port is absent. -/
def outNoPort : NewOutcome := Except.ok (⟨['a'], none, true⟩, 5)

/-- Concrete creation outcome: success with resolved port 8080. -/
def outPort8080 : NewOutcome := Except.ok (⟨['a'], some 8080, true⟩, 5)

/-- Concrete registry with two servers `"a"` (port 1234) and `"b"`
(port 2345). -/
def mgrAB : ServerManager :=
  ⟨[(0, ⟨['a'], some 1234, true⟩), (1, ⟨['b'], some 2345, true⟩)],
   [(['a'], ⟨0, 7⟩), (['b'], ⟨1, 8⟩)]⟩

/-- Concrete registry: one server `"a"` whose port has not resolved yet. -/
def mgrNoPort : ServerManager :=
  ⟨[(0, ⟨['a'], none, true⟩)], [(['a'], ⟨0, 7⟩)]⟩

/-- Concrete registry: one server `"a"` on port 1234. -/
def mgrOne : ServerManager :=
  ⟨[(0, ⟨['a'], some 1234, true⟩)], [(['a'], ⟨0, 7⟩)]⟩

/-- A sample read-only projection passed to the query operations. -/
def projPort (ms : MockServer) : Option Nat := ms.port

/-- A sample mutating projection passed to `find_mock_server_by_port_mut`. -/
def mutPort (ms : MockServer) : Option Nat × MockServer :=
  (ms.port, { ms with port := some 9 })

end PactMockServer

namespace PactHttpUtils

/-- `enum HttpAuth { User(String, Option<String>), Token(String) }`.
Strings are modelled as lists of characters (the code's byte indexing and
byte lengths coincide with character indexing and counts on ASCII
secrets). -/
inductive HttpAuth where
  | User (username : List Char) (password : Option (List Char))
  | Token (token : List Char)
deriving DecidableEq, Repr

/-- `t.get(0..4).unwrap_or("")`: the first four characters when the secret
has at least four, the empty string otherwise. -/
def firstFour (t : List Char) : List Char :=
  if 4 ≤ t.length then t.take 4 else []

/-- The `{:*<width$}` format: left-align `s` and pad with `*` up to
`w`. -/
def padTo (s : List Char) (w : Nat) : List Char :=
  s ++ List.replicate (w - s.length) '*'

/-- The `Display` implementation for `HttpAuth`: the secret is rendered as
its first four characters (empty when shorter than four) padded with
asterisks to the secret's length; an absent password renders as
`[no password]`. -/
def HttpAuth.display : HttpAuth → List Char
  | .Token t => "Token(".toList ++ padTo (firstFour t) t.length ++ ")".toList
  | .User u (some p) => "User(".toList ++ u ++ ", ".toList ++ padTo (firstFour p) p.length ++ ")".toList
  | .User u none => "User(".toList ++ u ++ ", [no password])".toList

/-- Everything the rendering may depend on: the variant, the username, and
for the secret only its first four characters and its length. -/
def HttpAuth.secretView : HttpAuth → Bool × List Char × Option (List Char × Nat)
  | .User u none => (false, u, none)
  | .User u (some p) => (false, u, some (p.take 4, p.length))
  | .Token t => (true, [], some (t.take 4, t.length))

end PactHttpUtils

/-!
Helper lemmas about the sorted-map operations, shared by the claim
theorems below.
-/

namespace PactMockServer

theorem assocGet_btInsert_self [LinearOrder α] [DecidableEq α]
    (m : List (α × β)) (k : α) (v : β) :
    assocGet (btInsert m k v) k = some v := by
  induction m with
  | nil => simp [btInsert, assocGet]
  | cons hd tl ih =>
    obtain ⟨k', v'⟩ := hd
    by_cases h1 : k < k'
    · simp [btInsert, assocGet, h1]
    · by_cases h2 : k = k'
      · simp [btInsert, assocGet, h1, h2]
      · simp [btInsert, assocGet, h1, h2, ih]

theorem mem_btInsert [LinearOrder α] {m : List (α × β)} {k : α} {v : β}
    {x : α × β} (hs : m.Pairwise (fun a b => a.1 < b.1))
    (hx : x ∈ btInsert m k v) :
    x = (k, v) ∨ (x ∈ m ∧ x.1 ≠ k) := by
  induction m with
  | nil =>
    simp [btInsert] at hx
    exact Or.inl hx
  | cons hd tl ih =>
    obtain ⟨k', v'⟩ := hd
    rw [List.pairwise_cons] at hs
    by_cases h1 : k < k'
    · rw [btInsert, if_pos h1, List.mem_cons] at hx
      rcases hx with hx | hx
      · exact Or.inl hx
      · refine Or.inr ⟨hx, ?_⟩
        rw [List.mem_cons] at hx
        rcases hx with hx | hx
        · rw [hx]; exact fun hk => absurd hk.symm (ne_of_lt h1)
        · have hlt := hs.1 x hx
          intro hk
          rw [hk] at hlt
          exact absurd (lt_trans h1 hlt) (lt_irrefl k)
    · by_cases h2 : k = k'
      · rw [btInsert, if_neg h1, if_pos h2, List.mem_cons] at hx
        rcases hx with hx | hx
        · exact Or.inl hx
        · refine Or.inr ⟨List.mem_cons_of_mem _ hx, ?_⟩
          have hlt := hs.1 x hx
          intro hk
          rw [hk, h2] at hlt
          exact absurd hlt (lt_irrefl k')
      · rw [btInsert, if_neg h1, if_neg h2, List.mem_cons] at hx
        rcases hx with hx | hx
        · exact Or.inr ⟨by rw [hx]; exact List.mem_cons_self _ _,
            by rw [hx]; exact fun hk => h2 hk.symm⟩
        · rcases ih hs.2 hx with hx' | hx'
          · exact Or.inl hx'
          · exact Or.inr ⟨List.mem_cons_of_mem _ hx'.1, hx'.2⟩

theorem btInsert_pairwise [LinearOrder α] {m : List (α × β)} (k : α) (v : β)
    (hs : m.Pairwise (fun a b => a.1 < b.1)) :
    (btInsert m k v).Pairwise (fun a b => a.1 < b.1) := by
  induction m with
  | nil => simp [btInsert]
  | cons hd tl ih =>
    obtain ⟨k', v'⟩ := hd
    rw [List.pairwise_cons] at hs
    by_cases h1 : k < k'
    · rw [btInsert, if_pos h1]
      refine List.Pairwise.cons ?_ (List.Pairwise.cons hs.1 hs.2)
      intro y hy
      rw [List.mem_cons] at hy
      rcases hy with hy | hy
      · rw [hy]; exact h1
      · exact lt_trans h1 (hs.1 y hy)
    · by_cases h2 : k = k'
      · rw [btInsert, if_neg h1, if_pos h2]
        refine List.Pairwise.cons ?_ hs.2
        intro y hy
        exact h2 ▸ hs.1 y hy
      · rw [btInsert, if_neg h1, if_neg h2]
        refine List.Pairwise.cons ?_ (ih hs.2)
        intro y hy
        rcases mem_btInsert hs.2 hy with hy' | hy'
        · rw [hy']
          exact lt_of_le_of_ne (le_of_not_lt h1) (Ne.symm h2)
        · exact hs.1 y hy'.1

theorem keys_nodup_of_pairwise [LinearOrder α] {m : List (α × β)}
    (hs : m.Pairwise (fun a b => a.1 < b.1)) :
    (m.map Prod.fst).Nodup :=
  hs.map Prod.fst (fun _ _ h => ne_of_lt h)

theorem foldl_push_eq_map {α β : Type} (g : α → β) (l : List α)
    (acc : List β) :
    l.foldl (fun rs x => rs ++ [g x]) acc = acc ++ l.map g := by
  induction l generalizing acc with
  | nil => simp
  | cons hd tl ih => simp [List.foldl, ih]

theorem shutdown_by_port_eq_scan (mgr : ServerManager) (port : Nat) :
    shutdown_mock_server_by_port mgr port =
      match (mgr.mock_servers.find?
          (fun kv => resolvedPortMatches mgr.store kv.2 port)).map
          (fun kv => (mgr.lockServer kv.2.mock_server).id) with
      | some id => shutdown_mock_server_by_id mgr id
      | none => (false, mgr, []) := by
  cases h : (mgr.mock_servers.find?
      (fun kv => resolvedPortMatches mgr.store kv.2 port)).map
      (fun kv => (mgr.lockServer kv.2.mock_server).id) with
  | none => simp [shutdown_mock_server_by_port, h]
  | some id => simp [shutdown_mock_server_by_port, shutdown_mock_server_by_id, h]

end PactMockServer

namespace PactHttpUtils

theorem padTo_firstFour_congr (t1 t2 : List Char)
    (h4 : t1.take 4 = t2.take 4) (hl : t1.length = t2.length) :
    padTo (firstFour t1) t1.length = padTo (firstFour t2) t2.length := by
  unfold firstFour
  rw [h4, hl]

end PactHttpUtils

/-!
Claim theorems.
-/

namespace PactMockServer

/-- C1 (counterexample): on a registry holding server `"a"` whose shutdown
signal cannot be delivered, `shutdown_mock_server_by_id "a"` returns
`false` yet the id-to-entry map has changed — the entry was removed before
the signal was attempted and is not reinserted. -/
theorem shutdown_by_id_failed_signal_removes_entry :
    (shutdown_mock_server_by_id mgrSigFail ['a']).1 = false ∧
    (shutdown_mock_server_by_id mgrSigFail ['a']).2.1.mock_servers
      ≠ mgrSigFail.mock_servers := by
  decide

/-- C1 (amended): if `shutdown_mock_server_by_id` returns `false` because
the id is unknown, the registry is entirely unchanged; if the id is known
but the signal cannot be delivered, it returns `false` with the entry
already removed (the map equals the original with that id erased) and no
task joined. -/
theorem shutdown_by_id_false_characterization (mgr : ServerManager) (id : RStr) :
    (assocGet mgr.mock_servers id = none →
      shutdown_mock_server_by_id mgr id = (false, mgr, [])) ∧
    (∀ e : ServerEntry, assocGet mgr.mock_servers id = some e →
      (mgr.lockServer e.mock_server).shutdownOk = false →
      shutdown_mock_server_by_id mgr id
        = (false, { mgr with mock_servers := assocErase mgr.mock_servers id }, [])) := by
  constructor
  · intro h
    simp [shutdown_mock_server_by_id, h]
  · intro e he hso
    simp [shutdown_mock_server_by_id, he, hso]

/-- C1 (witness): the characterization applied to concrete registries: an
unknown id `"b"`, and the known id `"a"` whose signal delivery fails. -/
theorem shutdown_by_id_false_characterization_witness :
    shutdown_mock_server_by_id mgrSigFail ['b'] = (false, mgrSigFail, []) ∧
    shutdown_mock_server_by_id mgrSigFail ['a']
      = (false, { mgrSigFail with
          mock_servers := assocErase mgrSigFail.mock_servers ['a'] }, []) :=
  ⟨(shutdown_by_id_false_characterization mgrSigFail ['b']).1 (by decide),
   (shutdown_by_id_false_characterization mgrSigFail ['a']).2 ⟨0, 7⟩
     (by decide) (by decide)⟩

/-- C2 (counterexample): with the same underlying creation outcome — success
but with the resolved port absent — the blocking `start_mock_server`
returns `Ok` of the requested port while `start_mock_server_nonblocking`
returns `Err "Started mock server has no port"`: the two results differ. -/
theorem start_blocking_vs_nonblocking_differ :
    (start_mock_server ⟨[], []⟩ ['a'] outNoPort 0).1 = Except.ok 0 ∧
    (start_mock_server_nonblocking ⟨[], []⟩ ['a'] outNoPort 0).1
      = Except.error ("Started mock server has no port".toList) ∧
    (start_mock_server ⟨[], []⟩ ['a'] outNoPort 0).1
      ≠ (start_mock_server_nonblocking ⟨[], []⟩ ['a'] outNoPort 0).1 :=
  ⟨rfl, rfl, fun h => Except.noConfusion h⟩

/-- C2 (amended): for every id, creation outcome and requested port, the
blocking and the suspend-capable start leave the registry in the same state
and join nothing; and whenever the creation outcome is an error or reports
a resolved port, both return the same value.  (They differ only when a
successful creation reports no resolved port: the blocking variant returns
the requested port, the non-blocking one an error.) -/
theorem start_nonblocking_refines_blocking (mgr : ServerManager) (id : RStr)
    (outcome : NewOutcome) (port : Nat) :
    (start_mock_server mgr id outcome port).2.1
      = (start_mock_server_nonblocking mgr id outcome port).2.1 ∧
    (start_mock_server mgr id outcome port).2.2
      = (start_mock_server_nonblocking mgr id outcome port).2.2 ∧
    ((∀ ms : MockServer, ∀ fut : Nat,
        outcome = Except.ok (ms, fut) → ms.port ≠ none) →
      (start_mock_server mgr id outcome port).1
        = (start_mock_server_nonblocking mgr id outcome port).1) := by
  cases outcome with
  | error e => exact ⟨rfl, rfl, fun _ => rfl⟩
  | ok msfut =>
    obtain ⟨ms, fut⟩ := msfut
    cases hp : ms.port with
    | some p =>
      refine ⟨?_, ?_, fun _ => ?_⟩ <;>
        simp [start_mock_server, start_mock_server_with_addr,
          start_mock_server_nonblocking, Except.map, hp]
    | none =>
      refine ⟨?_, ?_, fun hcon => absurd hp (hcon ms fut rfl)⟩ <;>
        simp [start_mock_server, start_mock_server_with_addr,
          start_mock_server_nonblocking, hp]

/-- C2 (witness): the agreement applied at a concrete outcome whose
resolved port is 8080. -/
theorem start_nonblocking_refines_blocking_witness :
    (start_mock_server ⟨[], []⟩ ['a'] outPort8080 0).2.1
      = (start_mock_server_nonblocking ⟨[], []⟩ ['a'] outPort8080 0).2.1 ∧
    (start_mock_server ⟨[], []⟩ ['a'] outPort8080 0).2.2
      = (start_mock_server_nonblocking ⟨[], []⟩ ['a'] outPort8080 0).2.2 ∧
    (start_mock_server ⟨[], []⟩ ['a'] outPort8080 0).1
      = (start_mock_server_nonblocking ⟨[], []⟩ ['a'] outPort8080 0).1 := by
  have h := start_nonblocking_refines_blocking ⟨[], []⟩ ['a'] outPort8080 0
  refine ⟨h.1, h.2.1, h.2.2 ?_⟩
  intro ms fut heq
  injection heq with h2
  injection h2 with h3 h4
  rw [← h3]
  simp

/-- C4: when the server creation (socket bind / server construction) fails,
neither the plain nor the TLS start inserts anything: result is the error,
the registry is returned unchanged, and no task is joined. -/
theorem start_failure_leaves_registry_unchanged (mgr : ServerManager)
    (id : RStr) (addr : SocketAddr) (e : RStr) :
    start_mock_server_with_addr mgr id (Except.error e) addr
      = (Except.error e, mgr, []) ∧
    start_tls_mock_server_with_addr mgr id (Except.error e) addr
      = (Except.error e, mgr, []) :=
  ⟨rfl, rfl⟩

/-- C5: under the spec-modelled bind guarantee (`bindResolved`: a
successful `MockServer::new` has a strictly positive resolved port), a
successful `start_mock_server` with requested port 0 returns exactly the
resolved port, which is greater than 0. -/
theorem start_port_zero_returns_resolved_port (mgr : ServerManager)
    (id : RStr) (outcome : NewOutcome) (ms : MockServer) (fut : Nat) (p : Nat)
    (hb : bindResolved outcome = true)
    (hout : outcome = Except.ok (ms, fut))
    (hp : ms.port = some p) :
    (start_mock_server mgr id outcome 0).1 = Except.ok p ∧ 0 < p := by
  subst hout
  constructor
  · simp [start_mock_server, start_mock_server_with_addr, Except.map, hp]
  · simp [bindResolved, hp] at hb
    exact hb

/-- C5 (witness): a concrete successful start on requested port 0 with the
bind resolving to 8080. -/
theorem start_port_zero_returns_resolved_port_witness :
    (start_mock_server ⟨[], []⟩ ['a'] outPort8080 0).1 = Except.ok 8080 ∧
    0 < 8080 :=
  start_port_zero_returns_resolved_port ⟨[], []⟩ ['a'] outPort8080
    ⟨['a'], some 8080, true⟩ 5 8080 (by decide) rfl rfl

/-- C6: `shutdown_mock_server_by_port` equals: scan the entries in order
for the first whose `port.unwrap_or_default()` matches, project out that
server's id and behave exactly as `shutdown_mock_server_by_id` on it; when
nothing matches, return `false` leaving the registry unchanged. -/
theorem shutdown_by_port_behaves_as_shutdown_by_id (mgr : ServerManager)
    (port : Nat) :
    shutdown_mock_server_by_port mgr port =
      match (mgr.mock_servers.find?
          (fun kv => resolvedPortMatches mgr.store kv.2 port)).map
          (fun kv => (mgr.lockServer kv.2.mock_server).id) with
      | some id => shutdown_mock_server_by_id mgr id
      | none => (false, mgr, []) :=
  shutdown_by_port_eq_scan mgr port

end PactMockServer

namespace PactMockServer

/-- C3: a successful start under an id that is already mapped silently
replaces the existing entry: afterwards the id maps to the fresh entry, it
is the only entry under that id (the old one is discarded from the map),
no task handle is joined by the call, and the map's keys remain free of
duplicates. -/
theorem start_replaces_existing_entry (mgr : ServerManager) (id : RStr)
    (outcome : NewOutcome) (addr : SocketAddr) (ms : MockServer) (fut : Nat)
    (eOld : ServerEntry)
    (hout : outcome = Except.ok (ms, fut))
    (_hold : assocGet mgr.mock_servers id = some eOld)
    (hs : sortedKeys mgr.mock_servers) :
    assocGet (start_mock_server_with_addr mgr id outcome addr).2.1.mock_servers id
      = some ⟨mgr.store.length, fut⟩ ∧
    (∀ e : ServerEntry,
      (id, e) ∈ (start_mock_server_with_addr mgr id outcome addr).2.1.mock_servers →
      e = ⟨mgr.store.length, fut⟩) ∧
    (start_mock_server_with_addr mgr id outcome addr).2.2 = [] ∧
    ((start_mock_server_with_addr mgr id outcome addr).2.1.mock_servers.map Prod.fst).Nodup := by
  subst hout
  have hmock : (start_mock_server_with_addr mgr id (Except.ok (ms, fut)) addr).2.1.mock_servers
      = btInsert mgr.mock_servers id ⟨mgr.store.length, fut⟩ := by
    cases hp : ms.port <;> simp [start_mock_server_with_addr, hp]
  have hjoin : (start_mock_server_with_addr mgr id (Except.ok (ms, fut)) addr).2.2 = [] := by
    cases hp : ms.port <;> simp [start_mock_server_with_addr, hp]
  rw [hmock, hjoin]
  refine ⟨assocGet_btInsert_self _ _ _, ?_, rfl,
    keys_nodup_of_pairwise (btInsert_pairwise _ _ hs)⟩
  intro e he
  rcases mem_btInsert hs he with h | h
  · exact congrArg Prod.snd h
  · exact absurd rfl h.2

/-- C3 (witness): starting again under the already-present id `"a"` on a
concrete one-server registry. -/
theorem start_replaces_existing_entry_witness :
    assocGet (start_mock_server_with_addr mgrOne ['a'] outPort8080 ⟨0, 0⟩).2.1.mock_servers ['a']
      = some ⟨1, 5⟩ ∧
    (start_mock_server_with_addr mgrOne ['a'] outPort8080 ⟨0, 0⟩).2.2 = [] ∧
    ((start_mock_server_with_addr mgrOne ['a'] outPort8080 ⟨0, 0⟩).2.1.mock_servers.map
      Prod.fst).Nodup := by
  have h := start_replaces_existing_entry mgrOne ['a'] outPort8080 ⟨0, 0⟩
    ⟨['a'], some 8080, true⟩ 5 ⟨0, 7⟩ rfl (by decide) (by decide)
  exact ⟨h.1, h.2.2.1, h.2.2.2⟩

/-- C7: iterating all mock servers applies the projection to every
registered server exactly once in map order — under the `BTreeMap`
invariant that is ascending id order — and returns exactly as many results
as there are registered servers. -/
theorem map_mock_servers_visits_all_ascending {R : Type} (mgr : ServerManager)
    (f : MockServer → R) (h : sortedKeys mgr.mock_servers) :
    map_mock_servers mgr f
      = mgr.mock_servers.map (fun kv => f (mgr.lockServer kv.2.mock_server)) ∧
    (map_mock_servers mgr f).length = mgr.mock_servers.length ∧
    (mgr.mock_servers.map Prod.fst).Pairwise (fun a b => a < b) := by
  have h1 : map_mock_servers mgr f
      = mgr.mock_servers.map (fun kv => f (mgr.lockServer kv.2.mock_server)) := by
    rw [map_mock_servers, foldl_push_eq_map]
    exact List.nil_append _
  refine ⟨h1, ?_, h.map Prod.fst (fun a b hab => hab)⟩
  rw [h1, List.length_map]

/-- C7 (witness): the iteration over a concrete two-server registry. -/
theorem map_mock_servers_visits_all_ascending_witness :
    map_mock_servers mgrAB projPort
      = mgrAB.mock_servers.map (fun kv => projPort (mgrAB.lockServer kv.2.mock_server)) ∧
    (map_mock_servers mgrAB projPort).length = mgrAB.mock_servers.length ∧
    (mgrAB.mock_servers.map Prod.fst).Pairwise (fun a b => a < b) :=
  map_mock_servers_visits_all_ascending mgrAB projPort (by decide)

/-- C8: `find_mock_server_by_id` returns `none` for an unknown id and
`some (f server)` for a known one, and `find_mock_server_by_port_mut` —
whose projection may mutate the server state behind the entry's lock —
leaves the id-to-entry map exactly as it was. -/
theorem queries_preserve_map_membership {R : Type} (mgr : ServerManager)
    (id : RStr) (port : Nat) (f : MockServer → R)
    (g : MockServer → R × MockServer) :
    (assocGet mgr.mock_servers id = none →
      find_mock_server_by_id mgr id f = none) ∧
    (∀ e : ServerEntry, assocGet mgr.mock_servers id = some e →
      find_mock_server_by_id mgr id f = some (f (mgr.lockServer e.mock_server))) ∧
    (find_mock_server_by_port_mut mgr port g).2.mock_servers = mgr.mock_servers := by
  refine ⟨fun h => ?_, fun e he => ?_, ?_⟩
  · simp [find_mock_server_by_id, h]
  · simp [find_mock_server_by_id, he]
  · cases hf : (mgr.mock_servers.find? fun kv => resolvedPortMatches mgr.store kv.2 port) with
    | none => simp [find_mock_server_by_port_mut, hf]
    | some kv => simp [find_mock_server_by_port_mut, hf]

/-- C8 (witness): the query behaviors on a concrete two-server registry:
unknown id `"z"`, known id `"a"`, and a mutating port query on 1234. -/
theorem queries_preserve_map_membership_witness :
    find_mock_server_by_id mgrAB ['z'] projPort = none ∧
    find_mock_server_by_id mgrAB ['a'] projPort
      = some (projPort (mgrAB.lockServer 0)) ∧
    (find_mock_server_by_port_mut mgrAB 1234 mutPort).2.mock_servers
      = mgrAB.mock_servers :=
  ⟨(queries_preserve_map_membership mgrAB ['z'] 1234 projPort mutPort).1 (by decide),
   (queries_preserve_map_membership mgrAB ['a'] 1234 projPort mutPort).2.1 ⟨0, 7⟩ (by decide),
   (queries_preserve_map_membership mgrAB ['a'] 1234 projPort mutPort).2.2⟩

/-- C9: a server whose resolved port is still absent is matched by the
port-based lookups at port 0 — `port.unwrap_or_default()` collapses `None`
to 0 — so when such a server sits first in the map,
`find_mock_server_by_port_mut 0` selects it and
`shutdown_mock_server_by_port 0` behaves as the by-id shutdown on its
id. -/
theorem port_zero_selects_unresolved_server {R : Type} (mgr : ServerManager)
    (id : RStr) (e : ServerEntry) (g : MockServer → R × MockServer)
    (hhead : mgr.mock_servers.head? = some (id, e))
    (hport : (mgr.lockServer e.mock_server).port = none) :
    resolvedPortMatches mgr.store e 0 = true ∧
    (find_mock_server_by_port_mut mgr 0 g).1
      = some (g (mgr.lockServer e.mock_server)).1 ∧
    shutdown_mock_server_by_port mgr 0
      = shutdown_mock_server_by_id mgr (mgr.lockServer e.mock_server).id := by
  have hport' : ((assocGet mgr.store e.mock_server).getD msDefault).port = none := hport
  have hmatch : resolvedPortMatches mgr.store e 0 = true := by
    simp [resolvedPortMatches, hport']
  cases hms : mgr.mock_servers with
  | nil => rw [hms] at hhead; cases hhead
  | cons hd tl =>
    rw [hms] at hhead
    have hhd : hd = (id, e) := by simpa using hhead
    subst hhd
    have hfind : (mgr.mock_servers.find? fun kv => resolvedPortMatches mgr.store kv.2 0)
        = some (id, e) := by
      rw [hms]
      exact List.find?_cons_of_pos tl hmatch
    refine ⟨hmatch, ?_, ?_⟩
    · simp [find_mock_server_by_port_mut, hfind]
    · rw [shutdown_by_port_eq_scan, hfind]
      rfl

/-- C9 (witness): on a concrete registry whose only server has no resolved
port, the port-0 lookups select it. -/
theorem port_zero_selects_unresolved_server_witness :
    resolvedPortMatches mgrNoPort.store ⟨0, 7⟩ 0 = true ∧
    (find_mock_server_by_port_mut mgrNoPort 0 mutPort).1
      = some (mutPort (mgrNoPort.lockServer 0)).1 ∧
    shutdown_mock_server_by_port mgrNoPort 0
      = shutdown_mock_server_by_id mgrNoPort (mgrNoPort.lockServer 0).id :=
  port_zero_selects_unresolved_server mgrNoPort ['a'] ⟨0, 7⟩ mutPort
    (by decide) (by decide)

end PactMockServer

namespace PactHttpUtils

/-- C10: the rendered form of an `HttpAuth` value depends only on the
variant, the username, and the secret's first four characters and length —
so any two values agreeing on those render identically, and the output
reveals at most the first four characters of the secret, the rest being
asterisk padding up to the secret's length. -/
theorem display_masks_secret (a b : HttpAuth)
    (h : a.secretView = b.secretView) :
    a.display = b.display := by
  cases a with
  | Token t1 =>
    cases b with
    | Token t2 =>
      simp [HttpAuth.secretView] at h
      simp [HttpAuth.display, padTo_firstFour_congr t1 t2 h.1 h.2]
    | User u p => cases p <;> simp [HttpAuth.secretView] at h
  | User u1 p1 =>
    cases b with
    | Token t2 => cases p1 <;> simp [HttpAuth.secretView] at h
    | User u2 p2 =>
      cases p1 with
      | none =>
        cases p2 with
        | none =>
          simp [HttpAuth.secretView] at h
          simp [HttpAuth.display, h]
        | some q2 => simp [HttpAuth.secretView] at h
      | some q1 =>
        cases p2 with
        | none => simp [HttpAuth.secretView] at h
        | some q2 =>
          simp [HttpAuth.secretView] at h
          obtain ⟨hu, ht, hl⟩ := h
          simp [HttpAuth.display, hu, padTo_firstFour_congr q1 q2 ht hl]

/-- C10 (witness): two bearer tokens sharing their first four characters
and their length render to the same masked string. -/
theorem display_masks_secret_witness :
    HttpAuth.display (HttpAuth.Token ("abcdSECRET1".toList))
      = HttpAuth.display (HttpAuth.Token ("abcdSECRET2".toList)) :=
  display_masks_secret _ _ (by decide)

end PactHttpUtils
